import Mathlib

/-!
Verification of the reconciliation engine and commit protocol of
`update-passwd.c` (base-passwd 3.1.1).

The development shallowly embeds the program: the singly linked lists of
`struct _node` become Lean lists of records, the global `flag_dirty`
counter becomes an explicit numeric result, and the filesystem touched by
the commit manager becomes an association list from paths to file values.
The line-level record codec (`fgetpwent_r` and friends) is treated as
opaque: `read_passwd` is modelled on already-decoded entries, exactly as
the loop body handles them.
-/

set_option autoImplicit false

namespace UpdatePasswd

/-! ## Policy table (`specialusers`, `scan_users`, lines 54-326) -/

def FL_KEEPHOME : Nat := 0x0001
def FL_KEEPSHELL : Nat := 0x0002
def FL_KEEPGECOS : Nat := 0x0004
def FL_KEEPALL : Nat := 0x000f
def FL_NOAUTOREMOVE : Nat := 0x0010
def FL_NOAUTOADD : Nat := 0x0020

/-- The static `specialusers` table; the terminating `{0, 0}` sentinel of
the C array is represented by the end of the list. -/
def specialusers : List (Nat × Nat) :=
  [ (0, FL_KEEPALL ||| FL_NOAUTOREMOVE),
    (11, FL_KEEPHOME ||| FL_NOAUTOADD ||| FL_NOAUTOREMOVE),
    (33, FL_KEEPHOME),
    (70, FL_NOAUTOREMOVE),
    (71, FL_KEEPALL ||| FL_KEEPHOME ||| FL_NOAUTOADD ||| FL_NOAUTOREMOVE),
    (72, FL_KEEPALL ||| FL_KEEPHOME ||| FL_NOAUTOADD ||| FL_NOAUTOREMOVE),
    (73, FL_KEEPALL ||| FL_KEEPHOME ||| FL_NOAUTOADD ||| FL_NOAUTOREMOVE),
    (74, FL_KEEPALL ||| FL_KEEPHOME ||| FL_NOAUTOADD ||| FL_NOAUTOREMOVE),
    (75, FL_KEEPALL ||| FL_KEEPHOME ||| FL_NOAUTOADD ||| FL_NOAUTOREMOVE),
    (76, FL_KEEPALL ||| FL_KEEPHOME ||| FL_NOAUTOADD ||| FL_NOAUTOREMOVE) ]

/-- The C function `scan_users`: walk the table, and on the first entry whose id matches
return whether the requested flag is set; ids not in the table have no
flags. -/
def scan_users (id flag : Nat) : Bool :=
  match specialusers.find? (fun e => e.1 == id) with
  | some e => (e.2 &&& flag) != 0
  | none => false

def keephome (id : Nat) : Bool := scan_users id FL_KEEPHOME
def keepshell (id : Nat) : Bool := scan_users id FL_KEEPSHELL
def keepgecos (id : Nat) : Bool := scan_users id FL_KEEPGECOS
def noautoremove (id : Nat) : Bool := scan_users id FL_NOAUTOREMOVE

/-- The C function `noautoadd` as written in the C source (line 326): it queries
`FL_NOAUTOREMOVE`, not `FL_NOAUTOADD`. -/
def noautoadd (id : Nat) : Bool := scan_users id FL_NOAUTOREMOVE

/-! ## Record store (`struct _node` lists, lines 83-307) -/

/-- A `struct _node` of type `t_passwd`: the list-node `name` and `id`
fields together with the `struct passwd` payload.  `pw_name` always equals
`name` (both are set from the same parsed field and never diverge). -/
structure Node where
  name : String
  id : Nat
  pw_uid : Nat
  pw_gid : Nat
  pw_passwd : String
  pw_gecos : String
  pw_dir : String
  pw_shell : String
deriving DecidableEq

/-- A `struct _node` of type `t_group`. -/
structure GrNode where
  name : String
  id : Nat
  gr_gid : Nat
  gr_passwd : String
  gr_mem : List String
deriving DecidableEq

/-- The C function `copy_node`/`copy_passwd`: a fresh node with every field duplicated;
under value semantics the copy carries exactly the same field values. -/
def copyPasswd (n : Node) : Node :=
  { name := n.name, id := n.id, pw_uid := n.pw_uid, pw_gid := n.pw_gid,
    pw_passwd := n.pw_passwd, pw_gecos := n.pw_gecos, pw_dir := n.pw_dir,
    pw_shell := n.pw_shell }

/-- The C function `copy_node`/`copy_group` (the member list is shared by reference in the
C source, which under value semantics is again the same value). -/
def copyGroup (g : GrNode) : GrNode :=
  { name := g.name, id := g.id, gr_gid := g.gr_gid,
    gr_passwd := g.gr_passwd, gr_mem := g.gr_mem }

/-- The tail-scan of `add_node` (lines 262-265): walk while the successor
exists and its id is not strictly greater, then splice the node in after
the current position. -/
def addScan : List Node → Node → List Node
  | [], node => [node]
  | [w], node => [w, node]
  | w :: w2 :: rest, node =>
    if w2.id ≤ node.id then w :: addScan (w2 :: rest) node
    else w :: node :: w2 :: rest

/-- The C function `add_node` (lines 247-266).  Note the head-replacement branch: the C
code sets `node->next=NULL` at entry and then, when the head id is
greater, assigns `*head=node` without linking the previous head behind the
new node, so the previous contents of the list are dropped. -/
def addNode : List Node → Node → List Node
  | [], node => [node]
  | h :: t, node =>
    if h.id > node.id then [node]
    else addScan (h :: t) node

def addScanGr : List GrNode → GrNode → List GrNode
  | [], node => [node]
  | [w], node => [w, node]
  | w :: w2 :: rest, node =>
    if w2.id ≤ node.id then w :: addScanGr (w2 :: rest) node
    else w :: node :: w2 :: rest

/-- The C function `add_node` instantiated at group nodes. -/
def addNodeGr : List GrNode → GrNode → List GrNode
  | [], node => [node]
  | h :: t, node =>
    if h.id > node.id then [node]
    else addScanGr (h :: t) node

/-- The C function `find_by_name` (lines 271-279): first node whose name matches. -/
def findByName : List Node → String → Option Node
  | [], _ => none
  | h :: t, nm => if nm = h.name then some h else findByName t nm

/-- The C function `find_by_named_entry` (lines 285-293): identical loop, keyed on the
probe entry's own name. -/
def findByNamedEntry (head : List Node) (entry : Node) : Option Node :=
  findByName head entry.name

def findByNameGr : List GrNode → String → Option GrNode
  | [], _ => none
  | h :: t, nm => if nm = h.name then some h else findByNameGr t nm

def findByNamedEntryGr (head : List GrNode) (entry : GrNode) : Option GrNode :=
  findByNameGr head entry.name

/-! ## Reconciler (lines 493-626) -/

/-- The C function `process_new_entries` (lines 493-507): for each master entry in order,
if no live entry has its name, deep-copy it into the live list and count
one change. -/
def processNewEntries (live master : List Node) : List Node × Nat :=
  match master with
  | [] => (live, 0)
  | m :: rest =>
    if (findByNamedEntry live m).isNone then
      let r := processNewEntries (addNode live (copyPasswd m)) rest
      (r.1, r.2 + 1)
    else
      processNewEntries live rest

def processNewEntriesGr (live master : List GrNode) : List GrNode × Nat :=
  match master with
  | [] => (live, 0)
  | m :: rest =>
    if (findByNamedEntryGr live m).isNone then
      let r := processNewEntriesGr (addNodeGr live (copyGroup m)) rest
      (r.1, r.2 + 1)
    else
      processNewEntriesGr live rest

/-- The removal test of `process_old_entries` (lines 516-522): inside the
reserved range (the `id<0` half of the C test is vacuous, `id` being
unsigned), not protected by `noautoremove`, and absent from master. -/
def oldRemovable (master : List Node) (p : Node) : Bool :=
  decide (p.id ≤ 99) && !noautoremove p.id && (findByNamedEntry master p).isNone

/-- The C function `process_old_entries` (lines 514-535).  The C loop header advances
`passwd=&((*passwd)->next)` after every iteration, including the ones
that removed `*passwd`; hence after a removal the record that moved into
the removed slot is skipped without being examined.  (When the removed
record was the last one the C update computes `&(NULL->next)`, which is
undefined; the model lets the loop terminate there.) -/
def processOldEntries (live master : List Node) : List Node × Nat :=
  match live with
  | [] => ([], 0)
  | p :: rest =>
    if oldRemovable master p then
      match rest with
      | [] => ([], 1)
      | q :: rest2 =>
        let r := processOldEntries rest2 master
        (q :: r.1, r.2 + 1)
    else
      let r := processOldEntries rest master
      (p :: r.1, r.2)

def oldRemovableGr (master : List GrNode) (p : GrNode) : Bool :=
  decide (p.id ≤ 99) && !noautoremove p.id && (findByNamedEntryGr master p).isNone

/-- The C function `process_old_entries` instantiated at group nodes. -/
def processOldEntriesGr (live master : List GrNode) : List GrNode × Nat :=
  match live with
  | [] => ([], 0)
  | p :: rest =>
    if oldRemovableGr master p then
      match rest with
      | [] => ([], 1)
      | q :: rest2 =>
        let r := processOldEntriesGr rest2 master
        (q :: r.1, r.2 + 1)
    else
      let r := processOldEntriesGr rest master
      (p :: r.1, r.2)

/-- Uid resync step of `process_changed_accounts` (lines 551-557): when the
node ids differ, both the node id and `pw_uid` take the master's values. -/
def updUid (p mc : Node) : Node × Nat :=
  if p.id ≠ mc.id then ({ p with id := mc.id, pw_uid := mc.pw_uid }, 1)
  else (p, 0)

/-- Gid resync step (lines 559-564). -/
def updGid (p mc : Node) : Node × Nat :=
  if p.pw_gid ≠ mc.pw_gid then ({ p with pw_gid := mc.pw_gid }, 1)
  else (p, 0)

/-- GECOS resync step (lines 566-576), gated on `keepgecos` of the node's
current id (which the uid step may already have rewritten); the C NULL
test on `pw_gecos` cannot fire on decoded records. -/
def updGecos (p mc : Node) : Node × Nat :=
  if keepgecos p.id = false ∧ p.pw_gecos ≠ mc.pw_gecos then
    ({ p with pw_gecos := mc.pw_gecos }, 1)
  else (p, 0)

/-- Home-directory resync step (lines 578-588). -/
def updDir (p mc : Node) : Node × Nat :=
  if keephome p.id = false ∧ p.pw_dir ≠ mc.pw_dir then
    ({ p with pw_dir := mc.pw_dir }, 1)
  else (p, 0)

/-- Shell resync step (lines 590-600). -/
def updShell (p mc : Node) : Node × Nat :=
  if keepshell p.id = false ∧ p.pw_shell ≠ mc.pw_shell then
    ({ p with pw_shell := mc.pw_shell }, 1)
  else (p, 0)

/-- Body of the `process_changed_accounts` loop (lines 541-601) for one
live record: skip records outside the reserved range or without a master
name-match, otherwise run the five update steps in source order. -/
def processChangedOne (master : List Node) (p : Node) : Node × Nat :=
  if 99 < p.id then (p, 0)
  else
    match findByNamedEntry master p with
    | none => (p, 0)
    | some mc =>
      let r1 := updUid p mc
      let r2 := updGid r1.1 mc
      let r3 := updGecos r2.1 mc
      let r4 := updDir r3.1 mc
      let r5 := updShell r4.1 mc
      (r5.1, r1.2 + r2.2 + r3.2 + r4.2 + r5.2)

/-- The C function `process_changed_accounts` (lines 540-602): each node is updated in
place, so the list shape is unchanged. -/
def processChangedAccounts (live master : List Node) : List Node × Nat :=
  match live with
  | [] => ([], 0)
  | p :: rest =>
    let r := processChangedOne master p
    let rr := processChangedAccounts rest master
    (r.1 :: rr.1, r.2 + rr.2)

/-- Body of the `process_changed_groups` loop (lines 607-626). -/
def processChangedOneGr (master : List GrNode) (g : GrNode) : GrNode × Nat :=
  if 99 < g.id then (g, 0)
  else
    match findByNamedEntryGr master g with
    | none => (g, 0)
    | some mc =>
      if g.id ≠ mc.id then ({ g with id := mc.id, gr_gid := mc.gr_gid }, 1)
      else (g, 0)

/-- The C function `process_changed_groups` (lines 607-626). -/
def processChangedGroups (live master : List GrNode) : List GrNode × Nat :=
  match live with
  | [] => ([], 0)
  | g :: rest =>
    let r := processChangedOneGr master g
    let rr := processChangedGroups rest master
    (r.1 :: rr.1, r.2 + rr.2)

/-- One reconciliation pass for one category of accounts, in the order of
`main` (lines 973-975): add, remove, update; the change count is the total
added to `flag_dirty`. -/
def reconcileAccounts (live master : List Node) : List Node × Nat :=
  let r1 := processNewEntries live master
  let r2 := processOldEntries r1.1 master
  let r3 := processChangedAccounts r2.1 master
  (r3.1, r1.2 + r2.2 + r3.2)

/-- One reconciliation pass for groups (lines 977-979). -/
def reconcileGroups (live master : List GrNode) : List GrNode × Nat :=
  let r1 := processNewEntriesGr live master
  let r2 := processOldEntriesGr r1.1 master
  let r3 := processChangedGroups r2.1 master
  (r3.1, r1.2 + r2.2 + r3.2)

/-- The full reconciliation of one run: accounts then groups, the dirty
counter accumulating over both. -/
def runReconciliation (liveA masterA : List Node) (liveG masterG : List GrNode) :
    List Node × List GrNode × Nat :=
  let ra := reconcileAccounts liveA masterA
  let rg := reconcileGroups liveG masterG
  (ra.1, rg.1, ra.2 + rg.2)

/-! ## Parsing (`read_passwd`, lines 329-367) -/

/-- INT_MAX, the sentinel id given to NSS `+` wildcard entries. -/
def INT_MAX : Nat := 2147483647

/-- One decoded `struct passwd` line, as delivered by the opaque codec
`fgetpwent_r`. -/
structure Pwent where
  pw_name : String
  pw_passwd : String
  pw_uid : Nat
  pw_gid : Nat
  pw_gecos : String
  pw_dir : String
  pw_shell : String
deriving DecidableEq

/-- The C test `name[0]=='+'`: the first character of the name is a plus
sign (an empty name has a NUL first byte, which is not a plus). -/
def firstCharIsPlus (s : String) : Bool :=
  match s.data with
  | [] => false
  | c :: _ => c == '+'

/-- Loop body of `read_passwd` (lines 345-356): the node id is INT_MAX for
names beginning with a plus sign, the numeric uid otherwise. -/
def nodeOfPwent (e : Pwent) : Node :=
  { name := e.pw_name,
    id := if firstCharIsPlus e.pw_name then INT_MAX else e.pw_uid,
    pw_uid := e.pw_uid, pw_gid := e.pw_gid, pw_passwd := e.pw_passwd,
    pw_gecos := e.pw_gecos, pw_dir := e.pw_dir, pw_shell := e.pw_shell }

/-- The C function `read_passwd`: fold the decoded entries into the list with `add_node`,
starting from the empty list the callers pass in. -/
def readPasswd (entries : List Pwent) : List Node :=
  entries.foldl (fun l e => addNode l (nodeOfPwent e)) []

/-- A sample account record whose node id, uid and gid all equal `u`, as
`read_passwd` produces for ordinary lines. -/
def mkNode (nm : String) (u : Nat) : Node :=
  { name := nm, id := u, pw_uid := u, pw_gid := u, pw_passwd := "x",
    pw_gecos := "gc", pw_dir := "/home", pw_shell := "/bin/sh" }

/-- A decoded NSS wildcard line (name begins with a plus sign). -/
def plusEnt : Pwent :=
  { pw_name := "+", pw_passwd := "", pw_uid := 0, pw_gid := 0,
    pw_gecos := "", pw_dir := "", pw_shell := "" }

/-- An ordinary decoded root line following the wildcard line. -/
def rootEnt : Pwent :=
  { pw_name := "root", pw_passwd := "x", pw_uid := 0, pw_gid := 0,
    pw_gecos := "root", pw_dir := "/root", pw_shell := "/bin/sh" }

/-! ## Commit manager: filesystem model (lines 629-870) -/

/-- A file on disk: its byte content and its mode/owner word (lumped into
one field, since `copy_filemodes` transfers them together). -/
structure FileV where
  data : String
  mode : Nat
deriving DecidableEq

/-- The filesystem: an association list from paths to files. -/
def FS : Type := List (String × FileV)

def fsGet : FS → String → Option FileV
  | [], _ => none
  | (q, f) :: rest, p => if p = q then some f else fsGet rest p

def fsRemove : FS → String → FS
  | [], _ => []
  | (q, f) :: rest, p => if q = p then fsRemove rest p else (q, f) :: fsRemove rest p

def fsSet (fs : FS) (p : String) (f : FileV) : FS :=
  (p, f) :: fsRemove fs p

def WRITE_EXTENSION : String := ".upwd-write"
def UNLINK_EXTENSION : String := ".upwd-unlink"

/-- The C function `rename_file` (lines 743-751): the Bool argument is the outcome the
operating system reports for the `rename` call; a rename whose source is
missing fails in any case.  On failure nothing changes. -/
def renameFile (ok : Bool) (fs : FS) (src tgt : String) : Bool × FS :=
  match fsGet fs src with
  | none => (false, fs)
  | some f => if ok then (true, fsSet (fsRemove fs src) tgt f) else (false, fs)

/-- The C function `unlink_file` (lines 731-738). -/
def unlinkFile (ok : Bool) (fs : FS) (p : String) : Bool × FS :=
  match fsGet fs p with
  | none => (false, fs)
  | some _ => if ok then (true, fsRemove fs p) else (false, fs)

/-- The C function `copy_filemodes` (lines 757-796): transfer the source's mode/owner
word onto the target. -/
def copyFilemodes (ok : Bool) (fs : FS) (src tgt : String) : Bool × FS :=
  match fsGet fs src, fsGet fs tgt with
  | some sf, some tf =>
    if ok then (true, fsSet fs tgt { tf with mode := sf.mode }) else (false, fs)
  | _, _ => (false, fs)

/-- Outcomes the operating system reports for each primitive call site of
`put_file_in_place`, one Bool per site in source order. -/
structure PutOracle where
  renameAside : Bool
  unlinkStagedOnFail : Bool
  renameInto : Bool
  renameRestore : Bool
  copyModes : Bool
  unlinkAsideOnFail : Bool
  unlinkAside : Bool
deriving DecidableEq

def allOkPut : PutOracle :=
  { renameAside := true, unlinkStagedOnFail := true, renameInto := true,
    renameRestore := true, copyModes := true, unlinkAsideOnFail := true,
    unlinkAside := true }

/-- The C function `put_file_in_place` (lines 802-828): rename the target aside to
`target ++ UNLINK_EXTENSION`, move the staged file onto the target, copy
the original's modes onto it, then drop the aside copy; each failure path
is the one the C takes.  Besides the outcome and the final filesystem, the
model returns the filesystem state after every primitive call, in order,
so that intermediate states can be inspected. -/
def putFileInPlace (o : PutOracle) (fs : FS) (source target : String) :
    Bool × FS × List FS :=
  let uf := target ++ UNLINK_EXTENSION
  let s1 := renameFile o.renameAside fs target uf
  if !s1.1 then
    let s2 := unlinkFile o.unlinkStagedOnFail s1.2 source
    (false, s2.2, [s1.2, s2.2])
  else
    let s2 := renameFile o.renameInto s1.2 source target
    if !s2.1 then
      let s3 := renameFile o.renameRestore s2.2 uf target
      (false, s3.2, [s1.2, s2.2, s3.2])
    else
      let s3 := copyFilemodes o.copyModes s2.2 uf target
      if !s3.1 then
        let s4 := unlinkFile o.unlinkAsideOnFail s3.2 uf
        (false, s4.2, [s1.2, s2.2, s3.2, s4.2])
      else
        let s4 := unlinkFile o.unlinkAside s3.2 uf
        (s4.1, s4.2, [s1.2, s2.2, s3.2, s4.2])

/-- Serialize store lines the way the `write_*` loops emit them: each
entry followed by a newline. -/
def serLines (lines : List String) : String :=
  lines.foldl (fun acc s => acc ++ s ++ "\n") ""

/-- Outcome of the stdio calls inside one `write_passwd` /`write_shadow` /
`write_group` call: whether `fopen` succeeds, the index of the first entry
whose write fails (if any in range), and whether `fclose` succeeds. -/
structure WriteOracle where
  openOk : Bool
  failAt : Option Nat
  closeOk : Bool
deriving DecidableEq

def allOkWrite : WriteOracle := { openOk := true, failAt := none, closeOk := true }

/-- Whether a staging call with this oracle succeeds on `n` entries. -/
def writeSucceeds (o : WriteOracle) (n : Nat) : Bool :=
  o.openOk && (match o.failAt with
               | some k => !decide (k < n)
               | none => true) && o.closeOk

/-- The C function `write_passwd` (lines 629-655), also standing for `write_shadow` and
`write_group`, which have the same failure structure: `fopen(file,"wt")`
truncates or creates the staging file; on a write failure at entry `k` the
function returns 0 with the first `k` entries in the file and without
unlinking it; a close failure likewise returns 0 with the file fully
written.  The staged file is created with mode 0 here; `put_file_in_place`
later copies the real modes. -/
def writeStore (o : WriteOracle) (lines : List String) (file : String) (fs : FS) :
    Bool × FS :=
  if o.openOk = false then (false, fs)
  else
    match o.failAt with
    | some k =>
      if k < lines.length then
        (false, fsSet fs file { data := serLines (lines.take k), mode := 0 })
      else if o.closeOk then (true, fsSet fs file { data := serLines lines, mode := 0 })
      else (false, fsSet fs file { data := serLines lines, mode := 0 })
    | none =>
      if o.closeOk then (true, fsSet fs file { data := serLines lines, mode := 0 })
      else (false, fsSet fs file { data := serLines lines, mode := 0 })

/-- Per-run oracle for `commit_files`: one write oracle and one publish
oracle per store. -/
structure CommitOracle where
  wPasswd : WriteOracle
  pPasswd : PutOracle
  wShadow : WriteOracle
  pShadow : PutOracle
  wGroup : WriteOracle
  pGroup : PutOracle
deriving DecidableEq

/-- The C function `commit_files` (lines 833-870): nothing to do when the dirty counter
is zero or in dry-run mode; otherwise stage and publish the passwd file,
then the shadow file (only when a shadow store was loaded), then the group
file, aborting at the first failure. -/
def commitFiles (o : CommitOracle) (flagDirty : Nat) (dryrun : Bool)
    (passwdLines shadowLines groupLines : List String) (haveShadow : Bool)
    (sysPasswd sysShadow sysGroup : String) (fs : FS) : Bool × FS :=
  if flagDirty = 0 then (true, fs)
  else if dryrun then (true, fs)
  else
    let w1 := writeStore o.wPasswd passwdLines (sysPasswd ++ WRITE_EXTENSION) fs
    if !w1.1 then (false, w1.2)
    else
      let p1 := putFileInPlace o.pPasswd w1.2 (sysPasswd ++ WRITE_EXTENSION) sysPasswd
      if !p1.1 then (false, p1.2.1)
      else
        let afterShadow :=
          if haveShadow then
            let w2 := writeStore o.wShadow shadowLines (sysShadow ++ WRITE_EXTENSION) p1.2.1
            if !w2.1 then (false, w2.2)
            else
              let p2 := putFileInPlace o.pShadow w2.2 (sysShadow ++ WRITE_EXTENSION) sysShadow
              (p2.1, p2.2.1)
          else (true, p1.2.1)
        if !afterShadow.1 then (false, afterShadow.2)
        else
          let w3 := writeStore o.wGroup groupLines (sysGroup ++ WRITE_EXTENSION) afterShadow.2
          if !w3.1 then (false, w3.2)
          else
            let p3 := putFileInPlace o.pGroup w3.2 (sysGroup ++ WRITE_EXTENSION) sysGroup
            (p3.1, p3.2.1)

/-- A sample filesystem holding the three live database files. -/
def sampleFS : FS :=
  [("p", FileV.mk "POLD" 420), ("sh", FileV.mk "SOLD" 384), ("g", FileV.mk "GOLD" 420)]

/-- A commit oracle whose account staging call fails when writing the
second entry; everything else succeeds. -/
def stageFailOracle : CommitOracle :=
  CommitOracle.mk (WriteOracle.mk true (some 1) true) allOkPut
    allOkWrite allOkPut allOkWrite allOkPut

/-- A commit oracle whose shadow staging call fails at its first entry;
everything else succeeds. -/
def shadowFailOracle : CommitOracle :=
  CommitOracle.mk allOkWrite allOkPut
    (WriteOracle.mk true (some 0) true) allOkPut allOkWrite allOkPut

/-- A commit oracle whose group staging call fails at its first entry;
everything else succeeds. -/
def groupFailOracle : CommitOracle :=
  CommitOracle.mk allOkWrite allOkPut
    allOkWrite allOkPut (WriteOracle.mk true (some 0) true) allOkPut

/-! ## Control flow of `main` after loading (lines 973-1000) -/

/-- The observable outcome of `main` once the five stores are loaded. -/
structure MainOutcome where
  accounts : List Node
  groups : List GrNode
  dirty : Nat
  lockAttempted : Bool
  commitAttempted : Bool
  exitCode : Nat
deriving DecidableEq

/-- The C function `main` from line 973 on: reconcile accounts, then groups; with the
sanity flag return 0 right away (before locking or committing); otherwise
lock (unless suppressed or dry-running, exit 3 on failure), commit (exit 4
on failure), unlock (exit 5 on failure), and in dry-run mode exit with the
dirty count.  `lockOk`, `commitOk` and `unlockOk` are the outcomes of the
respective calls when they happen. -/
def mainAfterLoad (optSanity optNolock optDryrun lockOk commitOk unlockOk : Bool)
    (sysA masterA : List Node) (sysG masterG : List GrNode) : MainOutcome :=
  let ra := reconcileAccounts sysA masterA
  let rg := reconcileGroups sysG masterG
  let dirty := ra.2 + rg.2
  if optSanity then
    { accounts := ra.1, groups := rg.1, dirty := dirty, lockAttempted := false,
      commitAttempted := false, exitCode := 0 }
  else
    let doLock := !optNolock && !optDryrun
    if doLock && !lockOk then
      { accounts := ra.1, groups := rg.1, dirty := dirty, lockAttempted := true,
        commitAttempted := false, exitCode := 3 }
    else if !commitOk then
      { accounts := ra.1, groups := rg.1, dirty := dirty, lockAttempted := doLock,
        commitAttempted := true, exitCode := 4 }
    else if doLock && !unlockOk then
      { accounts := ra.1, groups := rg.1, dirty := dirty, lockAttempted := doLock,
        commitAttempted := true, exitCode := 5 }
    else
      { accounts := ra.1, groups := rg.1, dirty := dirty, lockAttempted := doLock,
        commitAttempted := true, exitCode := if optDryrun then dirty else 0 }

/-- C1: in `process_old_entries`, removing a record makes the loop skip the
record that slid into its slot, so of two consecutive stale reserved-range
records only the first is deleted: with live accounts a(50), b(51) and an
empty master, the pass leaves b in place and counts one change, although b
is in range, unprotected and absent from master. -/
theorem processOldEntries_skips_after_removal :
    processOldEntries [mkNode "a" 50, mkNode "b" 51] [] = ([mkNode "b" 51], 1) ∧
    (mkNode "b" 51).id ≤ 99 ∧
    noautoremove (mkNode "b" 51).id = false ∧
    findByNamedEntry [] (mkNode "b" 51) = none := by
  decide

/-- C2: `add_node` on a non-empty list whose head id exceeds the new id
installs the new record as head with a NULL tail, dropping every record
the store held before: inserting id 3 into the store holding id 5 yields a
store from which the id-5 record has vanished. -/
theorem addNode_head_insert_drops_tail :
    addNode [mkNode "e" 5] (mkNode "d" 3) = [mkNode "d" 3] ∧
    mkNode "e" 5 ∉ addNode [mkNode "e" 5] (mkNode "d" 3) := by
  decide

/-- C7: reconciliation is not idempotent.  With master empty and live
accounts a(50), b(51), z(200), the first full run deletes a but skips b;
rerunning the full reconciliation on the first run's output removes b and
reports one further change, so the second run's dirty counter is 1, not
0. -/
theorem second_reconciliation_still_dirty :
    (runReconciliation
        (runReconciliation [mkNode "a" 50, mkNode "b" 51, mkNode "z" 200] [] [] []).1
        []
        (runReconciliation [mkNode "a" 50, mkNode "b" 51, mkNode "z" 200] [] [] []).2.1
        []).2.2 = 1 := by
  decide

theorem oldRemovable_id_le {master : List Node} {p : Node}
    (h : oldRemovable master p = true) : p.id ≤ 99 := by
  simp only [oldRemovable, Bool.and_eq_true, decide_eq_true_eq] at h
  exact h.1.1

theorem oldRemovableGr_id_le {master : List GrNode} {p : GrNode}
    (h : oldRemovableGr master p = true) : p.id ≤ 99 := by
  simp only [oldRemovableGr, Bool.and_eq_true, decide_eq_true_eq] at h
  exact h.1.1

/-- A record outside the reserved range survives `process_old_entries`:
it is either examined (and then the range test keeps it) or skipped as
the successor of a removed record. -/
theorem processOldEntries_keeps_high (master : List Node) :
    ∀ (live : List Node) (p : Node), p ∈ live → 99 < p.id →
      p ∈ (processOldEntries live master).1
  | [], p, hp, _ => absurd hp (List.not_mem_nil p)
  | q :: rest, p, hp, hid => by
    by_cases hrem : oldRemovable master q
    · have hpq : p ≠ q := by
        intro h
        rw [h] at hid
        exact absurd (oldRemovable_id_le hrem) (Nat.not_le.mpr hid)
      have hprest : p ∈ rest := (List.mem_cons.mp hp).resolve_left hpq
      cases rest with
      | nil => exact absurd hprest (List.not_mem_nil p)
      | cons r rest2 =>
        simp only [processOldEntries, hrem, if_true]
        rcases List.mem_cons.mp hprest with h | h
        · exact h ▸ List.mem_cons_self r _
        · exact List.mem_cons_of_mem r
            (processOldEntries_keeps_high master rest2 p h hid)
    · cases rest with
      | nil =>
        rcases List.mem_cons.mp hp with h | h
        · simp only [processOldEntries, hrem, if_false]
          exact h ▸ List.mem_cons_self q _
        · exact absurd h (List.not_mem_nil p)
      | cons r rest2 =>
        simp only [processOldEntries, hrem, if_false]
        rcases List.mem_cons.mp hp with h | h
        · exact h ▸ List.mem_cons_self q _
        · exact List.mem_cons_of_mem q
            (processOldEntries_keeps_high master (r :: rest2) p h hid)

/-- Group version of `processOldEntries_keeps_high`. -/
theorem processOldEntriesGr_keeps_high (master : List GrNode) :
    ∀ (live : List GrNode) (g : GrNode), g ∈ live → 99 < g.id →
      g ∈ (processOldEntriesGr live master).1
  | [], g, hg, _ => absurd hg (List.not_mem_nil g)
  | q :: rest, g, hg, hid => by
    by_cases hrem : oldRemovableGr master q
    · have hgq : g ≠ q := by
        intro h
        rw [h] at hid
        exact absurd (oldRemovableGr_id_le hrem) (Nat.not_le.mpr hid)
      have hgrest : g ∈ rest := (List.mem_cons.mp hg).resolve_left hgq
      cases rest with
      | nil => exact absurd hgrest (List.not_mem_nil g)
      | cons r rest2 =>
        simp only [processOldEntriesGr, hrem, if_true]
        rcases List.mem_cons.mp hgrest with h | h
        · exact h ▸ List.mem_cons_self r _
        · exact List.mem_cons_of_mem r
            (processOldEntriesGr_keeps_high master rest2 g h hid)
    · cases rest with
      | nil =>
        rcases List.mem_cons.mp hg with h | h
        · simp only [processOldEntriesGr, hrem, if_false]
          exact h ▸ List.mem_cons_self q _
        · exact absurd h (List.not_mem_nil g)
      | cons r rest2 =>
        simp only [processOldEntriesGr, hrem, if_false]
        rcases List.mem_cons.mp hg with h | h
        · exact h ▸ List.mem_cons_self q _
        · exact List.mem_cons_of_mem q
            (processOldEntriesGr_keeps_high master (r :: rest2) g h hid)

/-- The update pass leaves a record outside the reserved range alone. -/
theorem processChangedOne_high (master : List Node) (p : Node) (h : 99 < p.id) :
    processChangedOne master p = (p, 0) := by
  simp only [processChangedOne, if_pos h]

theorem processChangedOneGr_high (master : List GrNode) (g : GrNode) (h : 99 < g.id) :
    processChangedOneGr master g = (g, 0) := by
  simp only [processChangedOneGr, if_pos h]

/-- The update pass is a position-by-position map. -/
theorem processChangedAccounts_get? (live master : List Node) :
    ∀ i : Nat, (processChangedAccounts live master).1.get? i =
      (live.get? i).map (fun p => (processChangedOne master p).1) := by
  induction live with
  | nil => intro i; simp [processChangedAccounts]
  | cons p rest ih =>
    intro i
    cases i with
    | zero => simp [processChangedAccounts]
    | succ j => simpa [processChangedAccounts] using ih j

theorem processChangedGroups_get? (live master : List GrNode) :
    ∀ i : Nat, (processChangedGroups live master).1.get? i =
      (live.get? i).map (fun g => (processChangedOneGr master g).1) := by
  induction live with
  | nil => intro i; simp [processChangedGroups]
  | cons g rest ih =>
    intro i
    cases i with
    | zero => simp [processChangedGroups]
    | succ j => simpa [processChangedGroups] using ih j

/-- C3 is false as stated: `process_new_entries` performs no range check,
so a master record with id 150 whose name is absent from the (empty) live
store is added to the live store by the reconciliation pass. -/
theorem master_high_id_gets_added :
    100 ≤ (mkNode "hi" 150).id ∧
    findByName [] (mkNode "hi" 150).name = none ∧
    (processNewEntries [] [mkNode "hi" 150]).1 = [copyPasswd (mkNode "hi" 150)] ∧
    copyPasswd (mkNode "hi" 150) ∈ (processNewEntries [] [mkNode "hi" 150]).1 := by
  decide

/-- C3 (amended): records whose numeric id is outside the reserved range
(id at least 100) are never removed by the remove-stale step and never
modified by the update step, for accounts and for groups alike, regardless
of the master store; the add step, however, copies any master record
absent by name from the live store into it whatever its id. -/
theorem high_ids_survive_remove_and_update
    (masterA liveA : List Node) (masterG liveG : List GrNode)
    (p : Node) (g : GrNode) (i j : Nat)
    (hpid : 99 < p.id) (hgid : 99 < g.id) :
    (p ∈ liveA → p ∈ (processOldEntries liveA masterA).1) ∧
    (liveA.get? i = some p → (processChangedAccounts liveA masterA).1.get? i = some p) ∧
    (g ∈ liveG → g ∈ (processOldEntriesGr liveG masterG).1) ∧
    (liveG.get? j = some g → (processChangedGroups liveG masterG).1.get? j = some g) := by
  refine ⟨fun hp => processOldEntries_keeps_high masterA liveA p hp hpid,
          fun hget => ?_,
          fun hg => processOldEntriesGr_keeps_high masterG liveG g hg hgid,
          fun hget => ?_⟩
  · rw [processChangedAccounts_get?, hget]
    simp [processChangedOne_high masterA p hpid]
  · rw [processChangedGroups_get?, hget]
    simp [processChangedOneGr_high masterG g hgid]

/-- Concrete instance of the amended C3 statement: a live account with uid
200 and a live group with gid 200 survive removal and update untouched. -/
theorem high_ids_survive_remove_and_update_witness :
    (mkNode "z" 200 ∈ (processOldEntries [mkNode "z" 200] []).1) ∧
    ((processChangedAccounts [mkNode "z" 200] []).1.get? 0 = some (mkNode "z" 200)) ∧
    (GrNode.mk "gz" 200 200 "x" [] ∈
      (processOldEntriesGr [GrNode.mk "gz" 200 200 "x" []] []).1) ∧
    ((processChangedGroups [GrNode.mk "gz" 200 200 "x" []] []).1.get? 0 =
      some (GrNode.mk "gz" 200 200 "x" [])) := by
  have h := high_ids_survive_remove_and_update [] [mkNode "z" 200]
    [] [GrNode.mk "gz" 200 200 "x" []] (mkNode "z" 200) (GrNode.mk "gz" 200 200 "x" [])
    0 0 (by decide) (by decide)
  exact ⟨h.1 (by decide), h.2.1 (by decide), h.2.2.1 (by decide), h.2.2.2 (by decide)⟩

theorem updUid_eq (p mc : Node) (hwp : p.pw_uid = p.id) (hwm : mc.pw_uid = mc.id) :
    updUid p mc =
      ({ p with id := mc.id, pw_uid := mc.pw_uid }, if p.id = mc.id then 0 else 1) := by
  by_cases h : p.id = mc.id
  · cases p; cases mc; simp_all [updUid]
  · cases p; cases mc; simp_all [updUid]

theorem updGid_eq (p mc : Node) :
    updGid p mc =
      ({ p with pw_gid := mc.pw_gid }, if p.pw_gid = mc.pw_gid then 0 else 1) := by
  by_cases h : p.pw_gid = mc.pw_gid
  · cases p; cases mc; simp_all [updGid]
  · cases p; cases mc; simp_all [updGid]

theorem updGecos_eq (p mc : Node) :
    updGecos p mc =
      ({ p with pw_gecos := if keepgecos p.id then p.pw_gecos else mc.pw_gecos },
       if keepgecos p.id = false ∧ p.pw_gecos ≠ mc.pw_gecos then 1 else 0) := by
  by_cases hk : keepgecos p.id
  · cases p; cases mc; simp_all [updGecos]
  · by_cases he : p.pw_gecos = mc.pw_gecos
    · cases p; cases mc; simp_all [updGecos]
    · cases p; cases mc; simp_all [updGecos]

theorem updDir_eq (p mc : Node) :
    updDir p mc =
      ({ p with pw_dir := if keephome p.id then p.pw_dir else mc.pw_dir },
       if keephome p.id = false ∧ p.pw_dir ≠ mc.pw_dir then 1 else 0) := by
  by_cases hk : keephome p.id
  · cases p; cases mc; simp_all [updDir]
  · by_cases he : p.pw_dir = mc.pw_dir
    · cases p; cases mc; simp_all [updDir]
    · cases p; cases mc; simp_all [updDir]

theorem updShell_eq (p mc : Node) :
    updShell p mc =
      ({ p with pw_shell := if keepshell p.id then p.pw_shell else mc.pw_shell },
       if keepshell p.id = false ∧ p.pw_shell ≠ mc.pw_shell then 1 else 0) := by
  by_cases hk : keepshell p.id
  · cases p; cases mc; simp_all [updShell]
  · by_cases he : p.pw_shell = mc.pw_shell
    · cases p; cases mc; simp_all [updShell]
    · cases p; cases mc; simp_all [updShell]

/-- Full characterization of the loop body of `process_changed_accounts`
for a reserved-range record with a master name-match, under the
`read_passwd` invariant that node ids equal numeric uids: after the body
runs, uid and gid carry the master's values, each of the three string
fields carries the master's value unless its preserve flag is set, and the
change count is exactly the number of fields that actually differed. -/
theorem processChangedOne_spec (master : List Node) (p mc : Node)
    (hle : p.id ≤ 99) (hfind : findByNamedEntry master p = some mc)
    (hwp : p.pw_uid = p.id) (hwm : mc.pw_uid = mc.id) :
    (processChangedOne master p).1 =
      { name := p.name, id := mc.id, pw_uid := mc.pw_uid, pw_gid := mc.pw_gid,
        pw_passwd := p.pw_passwd,
        pw_gecos := if keepgecos mc.id then p.pw_gecos else mc.pw_gecos,
        pw_dir := if keephome mc.id then p.pw_dir else mc.pw_dir,
        pw_shell := if keepshell mc.id then p.pw_shell else mc.pw_shell } ∧
    (processChangedOne master p).2 =
      (if p.id = mc.id then 0 else 1) +
      (if p.pw_gid = mc.pw_gid then 0 else 1) +
      (if keepgecos mc.id = false ∧ p.pw_gecos ≠ mc.pw_gecos then 1 else 0) +
      (if keephome mc.id = false ∧ p.pw_dir ≠ mc.pw_dir then 1 else 0) +
      (if keepshell mc.id = false ∧ p.pw_shell ≠ mc.pw_shell then 1 else 0) := by
  have hnlt : ¬ 99 < p.id := Nat.not_lt.mpr hle
  simp only [processChangedOne, if_neg hnlt, hfind,
    updUid_eq p mc hwp hwm, updGid_eq, updGecos_eq, updDir_eq, updShell_eq]
  constructor <;> trivial

/-- C4: after the update pass, a reserved-range live account record with a
name match in master carries the master's numeric user id, group id,
description, home and shell, except that a field whose preserve flag is
set for the account's id keeps its pre-reconciliation value; and the
change count for the record is exactly the number of fields that actually
differed, so an already-equal field adds nothing to the dirty counter.
The id-uid hypotheses record what `read_passwd` guarantees for every
non-wildcard record. -/
theorem apply_updates_syncs_matched_records
    (live master : List Node) (i : Nat) (p mc : Node)
    (hget : live.get? i = some p) (hle : p.id ≤ 99)
    (hfind : findByNamedEntry master p = some mc)
    (hwp : p.pw_uid = p.id) (hwm : mc.pw_uid = mc.id) :
    (processChangedAccounts live master).1.get? i = some
      { name := p.name, id := mc.id, pw_uid := mc.pw_uid, pw_gid := mc.pw_gid,
        pw_passwd := p.pw_passwd,
        pw_gecos := if keepgecos mc.id then p.pw_gecos else mc.pw_gecos,
        pw_dir := if keephome mc.id then p.pw_dir else mc.pw_dir,
        pw_shell := if keepshell mc.id then p.pw_shell else mc.pw_shell } ∧
    (processChangedOne master p).2 =
      (if p.id = mc.id then 0 else 1) +
      (if p.pw_gid = mc.pw_gid then 0 else 1) +
      (if keepgecos mc.id = false ∧ p.pw_gecos ≠ mc.pw_gecos then 1 else 0) +
      (if keephome mc.id = false ∧ p.pw_dir ≠ mc.pw_dir then 1 else 0) +
      (if keepshell mc.id = false ∧ p.pw_shell ≠ mc.pw_shell then 1 else 0) := by
  have hs := processChangedOne_spec master p mc hle hfind hwp hwm
  refine ⟨?_, hs.2⟩
  rw [processChangedAccounts_get?, hget]
  simp [hs.1]

/-- Concrete instance of C4 at the www-data id (33, preserve-home): the
home directory is preserved, gecos and shell take the master's values, and
only the two fields that differed are counted. -/
theorem apply_updates_syncs_matched_records_witness :
    (processChangedAccounts
        [Node.mk "www-data" 33 33 33 "x" "old-gecos" "/old-home" "/old-shell"]
        [Node.mk "www-data" 33 33 33 "x" "Web" "/var/www" "/usr/sbin/nologin"]).1.get? 0 =
      some (Node.mk "www-data" 33 33 33 "x" "Web" "/old-home" "/usr/sbin/nologin") ∧
    (processChangedOne
        [Node.mk "www-data" 33 33 33 "x" "Web" "/var/www" "/usr/sbin/nologin"]
        (Node.mk "www-data" 33 33 33 "x" "old-gecos" "/old-home" "/old-shell")).2 = 2 := by
  have h := apply_updates_syncs_matched_records
    [Node.mk "www-data" 33 33 33 "x" "old-gecos" "/old-home" "/old-shell"]
    [Node.mk "www-data" 33 33 33 "x" "Web" "/var/www" "/usr/sbin/nologin"]
    0
    (Node.mk "www-data" 33 33 33 "x" "old-gecos" "/old-home" "/old-shell")
    (Node.mk "www-data" 33 33 33 "x" "Web" "/var/www" "/usr/sbin/nologin")
    (by decide) (by decide) (by decide) (by decide) (by decide)
  refine ⟨?_, ?_⟩
  · rw [h.1]; decide
  · rw [h.2]; decide

/-- C9: the suppress-auto-add flag has no effect anywhere. The helper
`noautoadd` is the same function as `noautoremove` (it queries
FL_NOAUTOREMOVE, not FL_NOAUTOADD, as id 70 shows: it reports true there
although FL_NOAUTOADD is unset for 70), and `process_new_entries` copies a
master record absent by name from the live store without consulting any
policy flag at all. -/
theorem suppress_auto_add_has_no_effect (live : List Node) (m : Node)
    (habs : findByNamedEntry live m = none) :
    processNewEntries live [m] = (addNode live (copyPasswd m), 1) ∧
    noautoadd = noautoremove ∧
    noautoadd 70 = true ∧
    scan_users 70 FL_NOAUTOADD = false := by
  refine ⟨?_, rfl, by decide, by decide⟩
  simp [processNewEntries, habs, Option.isNone]

/-- Concrete instance of C9 at id 11 (ftp), whose policy entry carries
FL_NOAUTOADD: the record is copied into the live store all the same. -/
theorem suppress_auto_add_has_no_effect_witness :
    processNewEntries [] [mkNode "ftp" 11] =
      (addNode [] (copyPasswd (mkNode "ftp" 11)), 1) ∧
    scan_users 11 FL_NOAUTOADD = true := by
  exact ⟨(suppress_auto_add_has_no_effect [] (mkNode "ftp" 11) (by decide)).1, by decide⟩

/-- C10: the id of a wildcard record is INT_MAX as claimed, but the
record is not preserved: parsing a file whose plus-line precedes a line
with a smaller uid drops the wildcard record, because `add_node` replaces
the head without keeping the old list behind it. -/
theorem plus_entry_dropped_at_parse :
    (nodeOfPwent plusEnt).id = INT_MAX ∧
    readPasswd [plusEnt, rootEnt] = [nodeOfPwent rootEnt] ∧
    nodeOfPwent plusEnt ∉ readPasswd [plusEnt, rootEnt] := by
  decide

/-- C8 is false as stated: with the sanity flag set, `main` still runs the
full reconciliation before looking at the flag, so the in-memory stores
are mutated and the dirty counter counts the changes; the flag only makes
the program exit (status 0) before locking and committing, and no ordering
verification of any kind takes place. -/
theorem sanity_run_still_reconciles :
    (mainAfterLoad true false false true true true [] [mkNode "svc" 50] [] []).accounts =
      [copyPasswd (mkNode "svc" 50)] ∧
    (mainAfterLoad true false false true true true [] [mkNode "svc" 50] [] []).accounts ≠ [] ∧
    (mainAfterLoad true false false true true true [] [mkNode "svc" 50] [] []).dirty = 1 ∧
    (mainAfterLoad true false false true true true [] [mkNode "svc" 50] [] []).commitAttempted
      = false := by
  decide

/-- C8 (amended): when the sanity-check flag is given, the program runs
the in-memory reconciliation of both categories, then exits with status 0
without attempting to lock or to commit; no separate ordering verification
is performed (none exists in the program). -/
theorem sanity_flag_exits_before_commit
    (optNolock optDryrun lockOk commitOk unlockOk : Bool)
    (sysA masterA : List Node) (sysG masterG : List GrNode) :
    mainAfterLoad true optNolock optDryrun lockOk commitOk unlockOk
        sysA masterA sysG masterG =
      { accounts := (reconcileAccounts sysA masterA).1,
        groups := (reconcileGroups sysG masterG).1,
        dirty := (reconcileAccounts sysA masterA).2 + (reconcileGroups sysG masterG).2,
        lockAttempted := false, commitAttempted := false, exitCode := 0 } := rfl

theorem fsGet_fsRemove (p q : String) :
    ∀ fs : FS, fsGet (fsRemove fs p) q = if q = p then none else fsGet fs q := by
  intro fs
  induction fs with
  | nil => simp [fsRemove, fsGet]
  | cons e rest ih =>
    obtain ⟨a, g⟩ := e
    by_cases hap : a = p
    · rw [show fsRemove ((a, g) :: rest) p = fsRemove rest p by simp [fsRemove, hap], ih]
      by_cases hqp : q = p
      · simp [hqp]
      · simp only [if_neg hqp, fsGet]
        rw [if_neg (fun h => hqp (h.trans hap))]
    · rw [show fsRemove ((a, g) :: rest) p = (a, g) :: fsRemove rest p by
        simp [fsRemove, hap]]
      by_cases hqa : q = a
      · simp [fsGet, hqa, hap]
      · simp [fsGet, hqa, ih]

theorem fsGet_fsSet_self (fs : FS) (p : String) (f : FileV) :
    fsGet (fsSet fs p f) p = some f := by
  simp [fsSet, fsGet]

theorem fsGet_fsSet_ne (fs : FS) (p q : String) (f : FileV) (h : q ≠ p) :
    fsGet (fsSet fs p f) q = fsGet fs q := by
  simp [fsSet, fsGet, h, fsGet_fsRemove]

/-- C5 is false as stated: with destination and staged file both present
and no operating-system failure at all, the publish protocol passes
through an intermediate state (right after the destination is renamed
aside) in which no file exists at the destination path. -/
theorem publish_window_destination_missing :
    fsGet [("t", FileV.mk "orig" 420), ("s", FileV.mk "new" 384)] "t" =
      some (FileV.mk "orig" 420) ∧
    ∃ st ∈ (putFileInPlace allOkPut
        [("t", FileV.mk "orig" 420), ("s", FileV.mk "new" 384)] "s" "t").2.2,
      fsGet st "t" = none := by
  decide

set_option maxHeartbeats 3200000 in
/-- C5 (amended): the protocol first renames the destination aside, so
between that rename and the move of the staged file the destination path
is briefly absent; if moving the staged file into place fails, the aside
copy is renamed back, while on a later failure (copying filemodes or
removing the aside) the fully-written replacement simply stays in place;
hence, provided the restoring rename itself succeeds when invoked, a
publish attempt always ends with either the original content or the
fully-written replacement content at the destination. -/
theorem publish_ends_with_original_or_replacement
    (o : PutOracle) (fs : FS) (source target : String) (F G : FileV)
    (hT : fsGet fs target = some F) (hS : fsGet fs source = some G)
    (hst : source ≠ target)
    (hsu : source ≠ target ++ UNLINK_EXTENSION)
    (htu : target ≠ target ++ UNLINK_EXTENSION)
    (hres : o.renameRestore = true) :
    Option.map FileV.data (fsGet (putFileInPlace o fs source target).2.1 target) =
      some F.data ∨
    Option.map FileV.data (fsGet (putFileInPlace o fs source target).2.1 target) =
      some G.data := by
  have hts : target ≠ source := fun h => hst h.symm
  have hut : target ++ UNLINK_EXTENSION ≠ target := fun h => htu h.symm
  have hus : target ++ UNLINK_EXTENSION ≠ source := fun h => hsu h.symm
  obtain ⟨b1, b2, b3, b4, b5, b6, b7⟩ := o
  simp only at hres
  subst hres
  cases b1 <;> cases b2 <;> cases b3 <;> cases b5 <;> cases b6 <;> cases b7 <;>
    simp_all [putFileInPlace, renameFile, unlinkFile, copyFilemodes, Option.map,
      fsGet_fsSet_self, fsGet_fsSet_ne, fsGet_fsRemove]

/-- Concrete instance of the amended C5 statement: a fault-free publish of
a staged file over an existing destination ends with one of the two
contents in place. -/
theorem publish_ends_with_original_or_replacement_witness :
    Option.map FileV.data (fsGet (putFileInPlace allOkPut
        [("t", FileV.mk "orig" 420), ("s", FileV.mk "new" 384)] "s" "t").2.1 "t") =
      some "orig" ∨
    Option.map FileV.data (fsGet (putFileInPlace allOkPut
        [("t", FileV.mk "orig" 420), ("s", FileV.mk "new" 384)] "s" "t").2.1 "t") =
      some "new" :=
  publish_ends_with_original_or_replacement allOkPut
    [("t", FileV.mk "orig" 420), ("s", FileV.mk "new" 384)] "s" "t"
    (FileV.mk "orig" 420) (FileV.mk "new" 384)
    (by decide) (by decide) (by decide) (by decide) (by decide) rfl

/-- A failing staging call reports failure and touches no path other than
the staging file itself. -/
theorem writeStore_fail (o : WriteOracle) (lines : List String) (file : String)
    (fs : FS) (hw : writeSucceeds o lines.length = false) (q : String) (hq : q ≠ file) :
    (writeStore o lines file fs).1 = false ∧
    fsGet (writeStore o lines file fs).2 q = fsGet fs q := by
  obtain ⟨op, fa, cl⟩ := o
  cases op with
  | false => simp [writeStore]
  | true =>
    cases fa with
    | none =>
      cases cl with
      | false => simp_all [writeStore, writeSucceeds, fsGet_fsSet_ne]
      | true => simp_all [writeSucceeds]
    | some k =>
      by_cases hk : k < lines.length
      · simp_all [writeStore, fsGet_fsSet_ne]
      · cases cl with
        | false =>
          simp only [writeStore, writeSucceeds]
          rw [if_neg (by simp)]
          rw [if_neg hk]
          rw [if_neg (by simp)]
          exact ⟨rfl, fsGet_fsSet_ne _ _ _ _ hq⟩
        | true =>
          exfalso
          simp [writeSucceeds, hk] at hw

/-- A successful staging call truncates or creates the staging file and
writes every entry into it. -/
theorem writeStore_ok (o : WriteOracle) (lines : List String) (file : String)
    (fs : FS) (hw : writeSucceeds o lines.length = true) :
    writeStore o lines file fs = (true, fsSet fs file (FileV.mk (serLines lines) 0)) := by
  obtain ⟨op, fa, cl⟩ := o
  cases op with
  | false => simp [writeSucceeds] at hw
  | true =>
    cases fa with
    | none =>
      cases cl with
      | true => simp [writeStore]
      | false => simp [writeSucceeds] at hw
    | some k =>
      by_cases hk : k < lines.length
      · simp [writeSucceeds, hk] at hw
      · cases cl with
        | true => simp [writeStore, hk]
        | false => simp [writeSucceeds, hk] at hw

set_option maxHeartbeats 1600000 in
/-- A fault-free publish succeeds, and it touches no path other than the
staged file, the destination and the aside name. -/
theorem putFileInPlace_allOk (fs : FS) (source target : String) (F G : FileV)
    (hT : fsGet fs target = some F) (hS : fsGet fs source = some G)
    (hst : ¬ source = target)
    (hsu : ¬ source = target ++ UNLINK_EXTENSION)
    (htu : ¬ target = target ++ UNLINK_EXTENSION) :
    (putFileInPlace allOkPut fs source target).1 = true ∧
    ∀ q, ¬ q = source → ¬ q = target → ¬ q = target ++ UNLINK_EXTENSION →
      fsGet (putFileInPlace allOkPut fs source target).2.1 q = fsGet fs q := by
  have hts : ¬ target = source := fun h => hst h.symm
  have hut : ¬ target ++ UNLINK_EXTENSION = target := fun h => htu h.symm
  have hus : ¬ target ++ UNLINK_EXTENSION = source := fun h => hsu h.symm
  constructor
  · simp [putFileInPlace, allOkPut, renameFile, unlinkFile, copyFilemodes, hT, hS,
      fsGet_fsSet_self, fsGet_fsSet_ne, fsGet_fsRemove, hst, hsu, htu, hut, hus, hts]
  · intro q hq1 hq2 hq3
    simp [putFileInPlace, allOkPut, renameFile, unlinkFile, copyFilemodes, hT, hS,
      fsGet_fsSet_self, fsGet_fsSet_ne, fsGet_fsRemove, hst, hsu, htu, hut, hus, hts,
      hq1, hq2, hq3]

/-- C6 is false as stated: when writing the staged account file fails
after one of two entries, the run is aborted and the destinations are
untouched, but the partial staging file is NOT unlinked — it remains on
disk holding the first entry. -/
theorem stage_failure_leaves_partial_temp :
    (commitFiles stageFailOracle 1 false ["l1", "l2"] ["sl"] ["gl"] true
        "p" "sh" "g" sampleFS).1 = false ∧
    fsGet (commitFiles stageFailOracle 1 false ["l1", "l2"] ["sl"] ["gl"] true
        "p" "sh" "g" sampleFS).2 ("p" ++ WRITE_EXTENSION) =
      some (FileV.mk "l1\n" 0) ∧
    fsGet (commitFiles stageFailOracle 1 false ["l1", "l2"] ["sl"] ["gl"] true
        "p" "sh" "g" sampleFS).2 "p" = some (FileV.mk "POLD" 420) := by
  decide

set_option maxHeartbeats 1600000 in
/-- C6 (amended): when staging any of the three stores fails (the staging
file cannot be opened, written or closed), the commit aborts with a
failure result, the destination file of the failing store is untouched
and no further store is staged or published; the partial staging file,
however, is left in place, not unlinked.  The three conjuncts cover a
staging failure of the account store, of the shadow store (after the
account store went through), and of the group store (after the earlier
stores went through, with or without a shadow store); the path
inequalities say the six file names involved are distinct. -/
theorem stage_failure_aborts_run
    (o : CommitOracle) (flagDirty : Nat)
    (passwdLines shadowLines groupLines : List String)
    (haveShadow : Bool) (sysPasswd sysShadow sysGroup : String) (fs : FS)
    (P SH : FileV)
    (hd : ¬ flagDirty = 0)
    (hP : fsGet fs sysPasswd = some P)
    (hSH : fsGet fs sysShadow = some SH)
    (d1 : ¬ sysPasswd = sysPasswd ++ WRITE_EXTENSION)
    (d2 : ¬ sysShadow = sysPasswd ++ WRITE_EXTENSION)
    (d3 : ¬ sysGroup = sysPasswd ++ WRITE_EXTENSION)
    (d4 : ¬ sysShadow ++ WRITE_EXTENSION = sysPasswd ++ WRITE_EXTENSION)
    (d5 : ¬ sysGroup ++ WRITE_EXTENSION = sysPasswd ++ WRITE_EXTENSION)
    (d6 : ¬ sysPasswd ++ WRITE_EXTENSION = sysPasswd ++ UNLINK_EXTENSION)
    (d7 : ¬ sysPasswd = sysPasswd ++ UNLINK_EXTENSION)
    (d8 : ¬ sysShadow = sysPasswd)
    (d9 : ¬ sysGroup = sysPasswd)
    (d10 : ¬ sysGroup ++ WRITE_EXTENSION = sysPasswd)
    (d12 : ¬ sysShadow = sysPasswd ++ UNLINK_EXTENSION)
    (d13 : ¬ sysGroup = sysPasswd ++ UNLINK_EXTENSION)
    (d14 : ¬ sysGroup ++ WRITE_EXTENSION = sysPasswd ++ UNLINK_EXTENSION)
    (d16 : ¬ sysShadow = sysShadow ++ WRITE_EXTENSION)
    (d17 : ¬ sysGroup = sysShadow ++ WRITE_EXTENSION)
    (d18 : ¬ sysGroup ++ WRITE_EXTENSION = sysShadow ++ WRITE_EXTENSION)
    (d19 : ¬ sysShadow ++ WRITE_EXTENSION = sysShadow ++ UNLINK_EXTENSION)
    (d20 : ¬ sysShadow = sysShadow ++ UNLINK_EXTENSION)
    (d21 : ¬ sysGroup = sysShadow)
    (d22 : ¬ sysGroup = sysShadow ++ UNLINK_EXTENSION)
    (d23 : ¬ sysGroup = sysGroup ++ WRITE_EXTENSION) :
    (writeSucceeds o.wPasswd passwdLines.length = false →
      (commitFiles o flagDirty false passwdLines shadowLines groupLines haveShadow
          sysPasswd sysShadow sysGroup fs).1 = false ∧
      fsGet (commitFiles o flagDirty false passwdLines shadowLines groupLines haveShadow
          sysPasswd sysShadow sysGroup fs).2 sysPasswd = fsGet fs sysPasswd ∧
      fsGet (commitFiles o flagDirty false passwdLines shadowLines groupLines haveShadow
          sysPasswd sysShadow sysGroup fs).2 sysShadow = fsGet fs sysShadow ∧
      fsGet (commitFiles o flagDirty false passwdLines shadowLines groupLines haveShadow
          sysPasswd sysShadow sysGroup fs).2 sysGroup = fsGet fs sysGroup ∧
      fsGet (commitFiles o flagDirty false passwdLines shadowLines groupLines haveShadow
          sysPasswd sysShadow sysGroup fs).2 (sysShadow ++ WRITE_EXTENSION) =
        fsGet fs (sysShadow ++ WRITE_EXTENSION) ∧
      fsGet (commitFiles o flagDirty false passwdLines shadowLines groupLines haveShadow
          sysPasswd sysShadow sysGroup fs).2 (sysGroup ++ WRITE_EXTENSION) =
        fsGet fs (sysGroup ++ WRITE_EXTENSION)) ∧
    (writeSucceeds o.wPasswd passwdLines.length = true →
      o.pPasswd = allOkPut →
      haveShadow = true →
      writeSucceeds o.wShadow shadowLines.length = false →
      (commitFiles o flagDirty false passwdLines shadowLines groupLines haveShadow
          sysPasswd sysShadow sysGroup fs).1 = false ∧
      fsGet (commitFiles o flagDirty false passwdLines shadowLines groupLines haveShadow
          sysPasswd sysShadow sysGroup fs).2 sysShadow = fsGet fs sysShadow ∧
      fsGet (commitFiles o flagDirty false passwdLines shadowLines groupLines haveShadow
          sysPasswd sysShadow sysGroup fs).2 sysGroup = fsGet fs sysGroup ∧
      fsGet (commitFiles o flagDirty false passwdLines shadowLines groupLines haveShadow
          sysPasswd sysShadow sysGroup fs).2 (sysGroup ++ WRITE_EXTENSION) =
        fsGet fs (sysGroup ++ WRITE_EXTENSION)) ∧
    (writeSucceeds o.wPasswd passwdLines.length = true →
      o.pPasswd = allOkPut →
      (haveShadow = false ∨
        (writeSucceeds o.wShadow shadowLines.length = true ∧ o.pShadow = allOkPut)) →
      writeSucceeds o.wGroup groupLines.length = false →
      (commitFiles o flagDirty false passwdLines shadowLines groupLines haveShadow
          sysPasswd sysShadow sysGroup fs).1 = false ∧
      fsGet (commitFiles o flagDirty false passwdLines shadowLines groupLines haveShadow
          sysPasswd sysShadow sysGroup fs).2 sysGroup = fsGet fs sysGroup) := by
  refine ⟨?_, ?_, ?_⟩
  · intro hA
    have hfail := fun q hq =>
      writeStore_fail o.wPasswd passwdLines (sysPasswd ++ WRITE_EXTENSION) fs hA q hq
    have hf1 : (writeStore o.wPasswd passwdLines (sysPasswd ++ WRITE_EXTENSION) fs).1
        = false := (hfail sysPasswd d1).1
    simp only [commitFiles, if_neg hd, hf1, Bool.not_false, if_true, if_false]
    exact ⟨rfl, (hfail sysPasswd d1).2, (hfail sysShadow d2).2, (hfail sysGroup d3).2,
      (hfail (sysShadow ++ WRITE_EXTENSION) d4).2,
      (hfail (sysGroup ++ WRITE_EXTENSION) d5).2⟩
  · intro hB1 hB2 hB3 hB4
    subst hB3
    have ew1 := writeStore_ok o.wPasswd passwdLines (sysPasswd ++ WRITE_EXTENSION) fs hB1
    have hAp : fsGet (fsSet fs (sysPasswd ++ WRITE_EXTENSION)
        (FileV.mk (serLines passwdLines) 0)) sysPasswd = some P := by
      rw [fsGet_fsSet_ne _ _ _ _ d1]; exact hP
    have hpub := putFileInPlace_allOk
      (fsSet fs (sysPasswd ++ WRITE_EXTENSION) (FileV.mk (serLines passwdLines) 0))
      (sysPasswd ++ WRITE_EXTENSION) sysPasswd P (FileV.mk (serLines passwdLines) 0)
      hAp (fsGet_fsSet_self _ _ _) (fun h => d1 h.symm) d6 d7
    have hsf := fun q hq =>
      writeStore_fail o.wShadow shadowLines (sysShadow ++ WRITE_EXTENSION)
        (putFileInPlace allOkPut
          (fsSet fs (sysPasswd ++ WRITE_EXTENSION) (FileV.mk (serLines passwdLines) 0))
          (sysPasswd ++ WRITE_EXTENSION) sysPasswd).2.1 hB4 q hq
    have hsf1 := (hsf sysShadow d16).1
    simp only [commitFiles, if_neg hd, ew1, hB2, hpub.1, hsf1, Bool.not_true,
      Bool.not_false, Bool.false_eq_true, Bool.true_eq_false, if_true, if_false]
    refine ⟨trivial, ?_, ?_, ?_⟩
    · rw [(hsf sysShadow d16).2, hpub.2 sysShadow d2 d8 d12, fsGet_fsSet_ne _ _ _ _ d2]
    · rw [(hsf sysGroup d17).2, hpub.2 sysGroup d3 d9 d13, fsGet_fsSet_ne _ _ _ _ d3]
    · rw [(hsf (sysGroup ++ WRITE_EXTENSION) d18).2,
        hpub.2 (sysGroup ++ WRITE_EXTENSION) d5 d10 d14, fsGet_fsSet_ne _ _ _ _ d5]
  · intro hC1 hC2 hC3 hC4
    have ew1 := writeStore_ok o.wPasswd passwdLines (sysPasswd ++ WRITE_EXTENSION) fs hC1
    have hAp : fsGet (fsSet fs (sysPasswd ++ WRITE_EXTENSION)
        (FileV.mk (serLines passwdLines) 0)) sysPasswd = some P := by
      rw [fsGet_fsSet_ne _ _ _ _ d1]; exact hP
    have hpub := putFileInPlace_allOk
      (fsSet fs (sysPasswd ++ WRITE_EXTENSION) (FileV.mk (serLines passwdLines) 0))
      (sysPasswd ++ WRITE_EXTENSION) sysPasswd P (FileV.mk (serLines passwdLines) 0)
      hAp (fsGet_fsSet_self _ _ _) (fun h => d1 h.symm) d6 d7
    cases haveShadow with
    | false =>
      have hgf := fun q hq =>
        writeStore_fail o.wGroup groupLines (sysGroup ++ WRITE_EXTENSION)
          (putFileInPlace allOkPut
            (fsSet fs (sysPasswd ++ WRITE_EXTENSION) (FileV.mk (serLines passwdLines) 0))
            (sysPasswd ++ WRITE_EXTENSION) sysPasswd).2.1 hC4 q hq
      have hgf1 := (hgf sysGroup d23).1
      simp only [commitFiles, if_neg hd, ew1, hC2, hpub.1, hgf1, Bool.not_true,
        Bool.not_false, Bool.false_eq_true, Bool.true_eq_false, if_true, if_false]
      refine ⟨trivial, ?_⟩
      rw [(hgf sysGroup d23).2, hpub.2 sysGroup d3 d9 d13, fsGet_fsSet_ne _ _ _ _ d3]
    | true =>
      rcases hC3 with hsh | ⟨hws, hps⟩
      · exact absurd hsh (by simp)
      · have ew2 := writeStore_ok o.wShadow shadowLines (sysShadow ++ WRITE_EXTENSION)
          (putFileInPlace allOkPut
            (fsSet fs (sysPasswd ++ WRITE_EXTENSION) (FileV.mk (serLines passwdLines) 0))
            (sysPasswd ++ WRITE_EXTENSION) sysPasswd).2.1 hws
        have hBsh : fsGet (fsSet
            (putFileInPlace allOkPut
              (fsSet fs (sysPasswd ++ WRITE_EXTENSION) (FileV.mk (serLines passwdLines) 0))
              (sysPasswd ++ WRITE_EXTENSION) sysPasswd).2.1
            (sysShadow ++ WRITE_EXTENSION) (FileV.mk (serLines shadowLines) 0))
            sysShadow = some SH := by
          rw [fsGet_fsSet_ne _ _ _ _ d16, hpub.2 sysShadow d2 d8 d12,
            fsGet_fsSet_ne _ _ _ _ d2]
          exact hSH
        have hpub2 := putFileInPlace_allOk
          (fsSet
            (putFileInPlace allOkPut
              (fsSet fs (sysPasswd ++ WRITE_EXTENSION) (FileV.mk (serLines passwdLines) 0))
              (sysPasswd ++ WRITE_EXTENSION) sysPasswd).2.1
            (sysShadow ++ WRITE_EXTENSION) (FileV.mk (serLines shadowLines) 0))
          (sysShadow ++ WRITE_EXTENSION) sysShadow SH (FileV.mk (serLines shadowLines) 0)
          hBsh (fsGet_fsSet_self _ _ _) (fun h => d16 h.symm) d19 d20
        have hgf := fun q hq =>
          writeStore_fail o.wGroup groupLines (sysGroup ++ WRITE_EXTENSION)
            (putFileInPlace allOkPut
              (fsSet
                (putFileInPlace allOkPut
                  (fsSet fs (sysPasswd ++ WRITE_EXTENSION)
                    (FileV.mk (serLines passwdLines) 0))
                  (sysPasswd ++ WRITE_EXTENSION) sysPasswd).2.1
                (sysShadow ++ WRITE_EXTENSION) (FileV.mk (serLines shadowLines) 0))
              (sysShadow ++ WRITE_EXTENSION) sysShadow).2.1 hC4 q hq
        have hgf1 := (hgf sysGroup d23).1
        simp only [commitFiles, if_neg hd, ew1, hC2, hpub.1, ew2, hps, hpub2.1, hgf1,
          Bool.not_true, Bool.not_false, Bool.false_eq_true, Bool.true_eq_false,
          if_true, if_false]
        refine ⟨trivial, ?_⟩
        rw [(hgf sysGroup d23).2, hpub2.2 sysGroup d17 d21 d22,
          fsGet_fsSet_ne _ _ _ _ d17, hpub.2 sysGroup d3 d9 d13,
          fsGet_fsSet_ne _ _ _ _ d3]

/-- Concrete instance of the amended C6 statement, one conjunct per
failing store: an account staging failure leaves every destination and
the other staging paths as they were; a shadow staging failure leaves the
shadow and group files alone; a group staging failure leaves the group
file alone.  Each conjunct instantiates the corresponding case of the
theorem at its own failing oracle. -/
theorem stage_failure_aborts_run_witness :
    ((commitFiles stageFailOracle 1 false ["l1", "l2"] ["sl"] ["gl"] true
        "p" "sh" "g" sampleFS).1 = false ∧
     fsGet (commitFiles stageFailOracle 1 false ["l1", "l2"] ["sl"] ["gl"] true
        "p" "sh" "g" sampleFS).2 "p" = fsGet sampleFS "p" ∧
     fsGet (commitFiles stageFailOracle 1 false ["l1", "l2"] ["sl"] ["gl"] true
        "p" "sh" "g" sampleFS).2 "sh" = fsGet sampleFS "sh" ∧
     fsGet (commitFiles stageFailOracle 1 false ["l1", "l2"] ["sl"] ["gl"] true
        "p" "sh" "g" sampleFS).2 "g" = fsGet sampleFS "g" ∧
     fsGet (commitFiles stageFailOracle 1 false ["l1", "l2"] ["sl"] ["gl"] true
        "p" "sh" "g" sampleFS).2 ("sh" ++ WRITE_EXTENSION) =
       fsGet sampleFS ("sh" ++ WRITE_EXTENSION) ∧
     fsGet (commitFiles stageFailOracle 1 false ["l1", "l2"] ["sl"] ["gl"] true
        "p" "sh" "g" sampleFS).2 ("g" ++ WRITE_EXTENSION) =
       fsGet sampleFS ("g" ++ WRITE_EXTENSION)) ∧
    ((commitFiles shadowFailOracle 1 false ["l1", "l2"] ["sl"] ["gl"] true
        "p" "sh" "g" sampleFS).1 = false ∧
     fsGet (commitFiles shadowFailOracle 1 false ["l1", "l2"] ["sl"] ["gl"] true
        "p" "sh" "g" sampleFS).2 "sh" = fsGet sampleFS "sh" ∧
     fsGet (commitFiles shadowFailOracle 1 false ["l1", "l2"] ["sl"] ["gl"] true
        "p" "sh" "g" sampleFS).2 "g" = fsGet sampleFS "g" ∧
     fsGet (commitFiles shadowFailOracle 1 false ["l1", "l2"] ["sl"] ["gl"] true
        "p" "sh" "g" sampleFS).2 ("g" ++ WRITE_EXTENSION) =
       fsGet sampleFS ("g" ++ WRITE_EXTENSION)) ∧
    ((commitFiles groupFailOracle 1 false ["l1", "l2"] ["sl"] ["gl"] true
        "p" "sh" "g" sampleFS).1 = false ∧
     fsGet (commitFiles groupFailOracle 1 false ["l1", "l2"] ["sl"] ["gl"] true
        "p" "sh" "g" sampleFS).2 "g" = fsGet sampleFS "g") :=
  ⟨(stage_failure_aborts_run stageFailOracle 1 ["l1", "l2"] ["sl"] ["gl"] true
      "p" "sh" "g" sampleFS (FileV.mk "POLD" 420) (FileV.mk "SOLD" 384)
      (by decide) (by decide) (by decide)
      (by decide) (by decide) (by decide) (by decide) (by decide) (by decide)
      (by decide) (by decide) (by decide) (by decide) (by decide) (by decide)
      (by decide) (by decide) (by decide) (by decide) (by decide) (by decide)
      (by decide) (by decide) (by decide)).1 (by decide),
   (stage_failure_aborts_run shadowFailOracle 1 ["l1", "l2"] ["sl"] ["gl"] true
      "p" "sh" "g" sampleFS (FileV.mk "POLD" 420) (FileV.mk "SOLD" 384)
      (by decide) (by decide) (by decide)
      (by decide) (by decide) (by decide) (by decide) (by decide) (by decide)
      (by decide) (by decide) (by decide) (by decide) (by decide) (by decide)
      (by decide) (by decide) (by decide) (by decide) (by decide) (by decide)
      (by decide) (by decide) (by decide)).2.1
     (by decide) rfl rfl (by decide),
   (stage_failure_aborts_run groupFailOracle 1 ["l1", "l2"] ["sl"] ["gl"] true
      "p" "sh" "g" sampleFS (FileV.mk "POLD" 420) (FileV.mk "SOLD" 384)
      (by decide) (by decide) (by decide)
      (by decide) (by decide) (by decide) (by decide) (by decide) (by decide)
      (by decide) (by decide) (by decide) (by decide) (by decide) (by decide)
      (by decide) (by decide) (by decide) (by decide) (by decide) (by decide)
      (by decide) (by decide) (by decide)).2.2
     (by decide) rfl (Or.inr ⟨by decide, rfl⟩) (by decide)⟩

end UpdatePasswd
